import Mathlib

/-!
Verification of the LADSPA host adapter (`libs/ardour/ladspa_plugin.cc`).

The adapter's state machine (port table, shadow/live parameter slots, buffer
connections, latency port, activation flag) is embedded shallowly: control
values are modelled as exact rationals, the plugin's opaque `run` entry point
as an arbitrary function from the live control-slot array to a new array, and
the LADSPA port-descriptor bitmask as a record of the four direction/kind
bits.  The default-value resolver `_default_value`, which computes with
`exp`/`log`, is embedded separately over the reals.
-/

namespace Ladspa

/-- One entry of the `PortDescriptors` bitmask array of a LADSPA descriptor,
together with the matching entry of `PortNames`.  The four booleans render
the `LADSPA_IS_PORT_{INPUT,OUTPUT,CONTROL,AUDIO}` bit tests.  The all-false
value plays the role of the `0` descriptor that
`LadspaPlugin::port_descriptor` returns for an out-of-range index. -/
structure PortDescriptor where
  isInput : Bool
  isOutput : Bool
  isControl : Bool
  isAudio : Bool
  name : String
  deriving DecidableEq, Repr

/-- The all-bits-clear descriptor returned by `port_descriptor` for an
out-of-range port index. -/
def zeroPort : PortDescriptor :=
  ⟨false, false, false, false, ""⟩

/-- What a plugin port is currently connected to, mirroring the raw pointer
handed to the plugin by `connect_port`:
its own live control slot, a host audio buffer (with the frame offset applied
by `.data(offset)`), the session's shared zero-filled silent buffer, the
session's shared scratch buffer, or the latency probe's stack buffer. -/
inductive BufferConn where
  | unconnected
  | controlSlot (i : Nat)
  | host (bufIndex : Nat) (offset : Nat)
  | silent (offset : Nat)
  | scratch (offset : Nat)
  | probeBuffer
  deriving DecidableEq, Repr

/-- The mutable state of one `LadspaPlugin` instance: the immutable port
table (`_descriptor->PortDescriptors` / `PortNames`), the live slots
`_control_data`, the shadow slots `_shadow_data`, the current port
connections, the index of the port `_latency_control_port` points into
`_control_data` (if any), and `_was_activated`. -/
structure LadspaState where
  ports : List PortDescriptor
  control_data : List ℚ
  shadow_data : List ℚ
  connections : List BufferConn
  latency_control_port : Option Nat
  was_activated : Bool
  deriving DecidableEq, Repr

namespace LadspaState

/-- Embeds `Plugin::parameter_count`: `_descriptor->PortCount`. -/
def parameter_count (s : LadspaState) : Nat :=
  s.ports.length

/-- Embeds `LadspaPlugin::port_descriptor`: the descriptor for an in-range index,
the zero descriptor (after a logged warning) otherwise. -/
def port_descriptor (s : LadspaState) (i : Nat) : PortDescriptor :=
  s.ports.getD i zeroPort

/-- Embeds `LadspaPlugin::get_parameter`: shadow slot for an input-direction port,
live slot otherwise. -/
def get_parameter (s : LadspaState) (which : Nat) : ℚ :=
  if (s.port_descriptor which).isInput then
    s.shadow_data.getD which 0
  else
    s.control_data.getD which 0

/-- Embeds `LadspaPlugin::set_parameter`: rejects (with a logged warning, no state
change) an out-of-range index; elides the write when the currently visible
value (`get_parameter`) already equals `val`; otherwise writes the shadow
slot only.  The trailing `Plugin::set_parameter` call only feeds the base
class's notification machinery and touches none of this state. -/
def set_parameter (s : LadspaState) (which : Nat) (val : ℚ) : LadspaState :=
  if which < s.ports.length then
    if s.get_parameter which = val then
      s
    else
      { s with shadow_data := s.shadow_data.set which val }
  else
    s

/-- Embeds `connect_port (i, ptr)`: record what port `i` is wired to. -/
def connect_port (s : LadspaState) (i : Nat) (c : BufferConn) : LadspaState :=
  { s with connections := s.connections.set i c }

/-- Modelled from the spec: `activate` (defined in the `ladspa_plugin.h`
header, not in the reviewed source) is the lifecycle toggle that calls the
plugin's optional activate hook and raises `_was_activated`; only the flag
is host-side state. -/
def activate (s : LadspaState) : LadspaState :=
  { s with was_activated := true }

/-- Modelled from the spec: `deactivate` (defined in the `ladspa_plugin.h`
header, not in the reviewed source) lowers `_was_activated`. -/
def deactivate (s : LadspaState) : LadspaState :=
  { s with was_activated := false }

/-- The copy loop opening `LadspaPlugin::run_in_place`: for every port that
is input-direction and control-kind, `_control_data[i] = _shadow_data[i]`. -/
def shadowCopy (s : LadspaState) : LadspaState :=
  { s with control_data :=
      ((List.range s.ports.length).foldl
        (fun cd i =>
          if (s.port_descriptor i).isInput && (s.port_descriptor i).isControl then
            cd.set i (s.shadow_data.getD i 0)
          else cd)
        s.control_data) }

/-- Embeds `LadspaPlugin::run_in_place`: copy shadow to live for every input control
port, then hand the live slot array to the plugin's `run` entry point
(`_descriptor->run (_handle, nframes)`), modelled as the arbitrary function
`descRun` from frame count and live slots to new live slots. -/
def run_in_place (descRun : Nat → List ℚ → List ℚ) (nframes : Nat)
    (s : LadspaState) : LadspaState :=
  { s.shadowCopy with control_data := descRun nframes s.shadowCopy.control_data }

end LadspaState

/-- Modelled from the spec: the one zero-filled audio buffer of
`Session::get_silent_buffers` (not part of the reviewed source), a "shared,
persistent, zero-filled scratch buffer" that unmapped input ports read. -/
def silent_buffer : Nat → ℚ :=
  fun _ => 0

namespace LadspaState

/-- One step of the audio-routing loop of `LadspaPlugin::connect_and_run`:
walk one port index, consuming the next entry of the input (resp. output)
channel map for an audio input (resp. output) port; an invalid map lookup
connects the port to the silent (resp. scratch) buffer at the frame
offset. -/
def routeStep (im om : Nat → Option Nat) (off : Nat)
    (acc : LadspaState × Nat × Nat) (pi : Nat) : LadspaState × Nat × Nat :=
  if (acc.1.port_descriptor pi).isAudio then
    if (acc.1.port_descriptor pi).isInput then
      (acc.1.connect_port pi
        (match im acc.2.1 with
         | some b => BufferConn.host b off
         | none => BufferConn.silent off),
       acc.2.1 + 1, acc.2.2)
    else if (acc.1.port_descriptor pi).isOutput then
      (acc.1.connect_port pi
        (match om acc.2.2 with
         | some b => BufferConn.host b off
         | none => BufferConn.scratch off),
       acc.2.1, acc.2.2 + 1)
    else acc
  else acc

/-- The audio-routing loop of `LadspaPlugin::connect_and_run`: ports in
index order, with the two monotonically increasing audio counters starting
at zero. -/
def routePorts (im om : Nat → Option Nat) (off : Nat) (s : LadspaState) :
    LadspaState :=
  ((List.range s.ports.length).foldl (routeStep im om off) (s, 0, 0)).1

/-- Embeds `LadspaPlugin::connect_and_run`: route the audio ports against the two
channel maps, then `run_in_place (nframes)`.  The base-class bookkeeping
call and the cycle-counter timing around the run touch none of this state,
and the constant `return 0` is dropped. -/
def connect_and_run (descRun : Nat → List ℚ → List ℚ)
    (im om : Nat → Option Nat) (nframes off : Nat) (s : LadspaState) :
    LadspaState :=
  (s.routePorts im om off).run_in_place descRun nframes

/-- How many audio input ports precede port index `n` — the value of
`audio_in_index` when the routing loop reaches `n`. -/
def audio_in_count (s : LadspaState) (n : Nat) : Nat :=
  ((List.range n).filter
    (fun j => (s.port_descriptor j).isAudio && (s.port_descriptor j).isInput)).length

/-- How many audio output ports (ports taking the output branch of the
routing loop) precede port index `n` — the value of `audio_out_index` when
the loop reaches `n`. -/
def audio_out_count (s : LadspaState) (n : Nat) : Nat :=
  ((List.range n).filter
    (fun j => (s.port_descriptor j).isAudio && !(s.port_descriptor j).isInput
      && (s.port_descriptor j).isOutput)).length

/-- The connection the routing loop of `connect_and_run` establishes for
port `j` of state `s`: an audio input port consumes entry
`audio_in_count j` of the input map (the silent buffer when invalid), an
audio output port consumes entry `audio_out_count j` of the output map
(the scratch buffer when invalid), and any other port keeps its previous
connection. -/
def expectedConn (im om : Nat → Option Nat) (off : Nat) (s : LadspaState)
    (j : Nat) : BufferConn :=
  if (s.port_descriptor j).isAudio && (s.port_descriptor j).isInput then
    match im (s.audio_in_count j) with
    | some b => BufferConn.host b off
    | none => BufferConn.silent off
  else if (s.port_descriptor j).isAudio && (s.port_descriptor j).isOutput then
    match om (s.audio_out_count j) with
    | some b => BufferConn.host b off
    | none => BufferConn.scratch off
  else s.connections.getD j BufferConn.unconnected

/-- Embeds `LadspaPlugin::plugin_latency`: floor of the latency port's live value,
or zero when no latency port was detected. -/
def plugin_latency (s : LadspaState) : ℤ :=
  match s.latency_control_port with
  | some i => Int.floor (s.control_data.getD i 0)
  | none => 0

/-- The probe's stack buffer: `LADSPA_Data buffer[1024]`, zero-filled by
`memset` in `latency_compute_run`. -/
def probe_buffer : List ℚ :=
  List.replicate 1024 0

/-- The connection loop of `LadspaPlugin::latency_compute_run`: every audio
port, input branch or output branch alike, is wired to the single probe
buffer (the loop's `in_index`/`out_index` tallies are never read). -/
def probeConnect (s : LadspaState) : LadspaState :=
  { s with connections :=
      ((List.range s.ports.length).foldl
        (fun cs i =>
          if (s.port_descriptor i).isAudio
              && ((s.port_descriptor i).isInput || (s.port_descriptor i).isOutput) then
            cs.set i BufferConn.probeBuffer
          else cs)
        s.connections) }

/-- Embeds `LadspaPlugin::latency_compute_run`: an early return when no latency
port exists; otherwise activate, connect every audio port to the zero
probe buffer, run once for 1024 frames, deactivate. -/
def latency_compute_run (descRun : Nat → List ℚ → List ℚ) (s : LadspaState) :
    LadspaState :=
  match s.latency_control_port with
  | none => s
  | some _ => (((s.activate).probeConnect).run_in_place descRun 1024).deactivate

end LadspaState

/-- One `<Port>` child node of the structured state document: the two
properties `number` and `value`, either of which an arbitrary incoming
document may omit. -/
structure PortNode where
  number : Option Nat
  value : Option ℚ
  deriving DecidableEq, Repr

/-- Modelled from the spec: `Plugin::state_node_name` (base class, not in
the reviewed source) — the fixed container tag that `set_state` validates
the incoming node against. -/
def stateNodeName : String :=
  "ladspa"

namespace LadspaState

/-- The document prefix `LadspaPlugin::add_state` has produced after
visiting the first `n` ports: one `(number, value)` child per
input-direction control port, carrying that port's shadow value. -/
def docPrefix (s : LadspaState) (n : Nat) : List PortNode :=
  (List.range n).filterMap
    (fun i =>
      if (s.port_descriptor i).isInput && (s.port_descriptor i).isControl then
        some ⟨some i, some (s.shadow_data.getD i 0)⟩
      else none)

/-- Embeds `LadspaPlugin::add_state`: one `(number, value)` child per port that is
input-direction and control-kind, carrying that port's shadow value; no
other port is serialized. -/
def add_state (s : LadspaState) : List PortNode :=
  s.docPrefix s.ports.length

/-- The entry-application loop of `LadspaPlugin::set_state`: each child with
both a port number and a value goes through `set_parameter`; a child missing
either is skipped with a recoverable warning. -/
def applyPortNodes (nodes : List PortNode) (s : LadspaState) : LadspaState :=
  nodes.foldl
    (fun st nd =>
      match nd.number, nd.value with
      | some p, some v => st.set_parameter p v
      | _, _ => st)
    s

/-- Embeds `LadspaPlugin::set_state` for a current-format (version ≥ 3000)
document: `-1` and no state change on a container-tag mismatch; otherwise
apply every well-formed `Port` child through `set_parameter`, then re-run
the latency probe.  (A version < 3000 document is dispatched to the
legacy string-based decoder `set_state_2X`, which funnels into the same
`set_parameter` loop; the trailing `Plugin::set_state` result is modelled
as the success code 0.) -/
def set_state (descRun : Nat → List ℚ → List ℚ) (nodeName : String)
    (nodes : List PortNode) (s : LadspaState) : Int × LadspaState :=
  if nodeName ≠ stateNodeName then
    (-1, s)
  else
    (0, (applyPortNodes nodes s).latency_compute_run descRun)

end LadspaState

/-- Embeds `LadspaPlugin::init` given the port table the module's descriptor
exposes at the instantiated sample rate: zero both slot arrays, then for
every control port connect the port to its live slot, detect the
output-direction port literally named `latency` (zeroing its live slot),
and seed shadow and live with the resolved default (`dv i` stands for
`_default_value (i)`, embedded separately over the reals); finally run the
latency probe. -/
def initState (descRun : Nat → List ℚ → List ℚ) (ports : List PortDescriptor)
    (dv : Nat → ℚ) : LadspaState :=
  (((List.range ports.length).foldl
    (fun s i =>
      if (s.port_descriptor i).isControl then
        let s1 := s.connect_port i (BufferConn.controlSlot i)
        let s2 :=
          if (s1.port_descriptor i).isOutput && (s1.port_descriptor i).name = "latency" then
            { s1 with latency_control_port := some i,
                      control_data := s1.control_data.set i 0 }
          else s1
        { s2 with shadow_data := s2.shadow_data.set i (dv i),
                  control_data := s2.control_data.set i (dv i) }
      else s)
    ⟨ports, List.replicate ports.length 0, List.replicate ports.length 0,
     List.replicate ports.length BufferConn.unconnected, none, false⟩) :
      LadspaState).latency_compute_run descRun

/-- The copy constructor `LadspaPlugin::LadspaPlugin (const LadspaPlugin&)`:
re-run `init` against the same module path, descriptor index and sample
rate (hence the same port table and the same resolved defaults), then for
every port index copy the source's shadow value into both the new live and
the new shadow slot. -/
def copyConstruct (descRun : Nat → List ℚ → List ℚ) (dv : Nat → ℚ)
    (other : LadspaState) : LadspaState :=
  (List.range other.ports.length).foldl
    (fun st i =>
      { st with control_data := st.control_data.set i (other.shadow_data.getD i 0),
                shadow_data := st.shadow_data.set i (other.shadow_data.getD i 0) })
    (initState descRun other.ports dv)

/-- The `default-*` kind encoded in the masked bits of a LADSPA hint
descriptor: exactly one of the nine `LADSPA_HINT_DEFAULT_*` values, or a
mask combination matching none of the `LADSPA_IS_HINT_DEFAULT_*` tests
(`unrecognized`). -/
inductive DefaultKind where
  | minimum
  | low
  | middle
  | high
  | maximum
  | lit0
  | lit1
  | lit100
  | lit440
  | unrecognized
  deriving DecidableEq, Repr

/-- A LADSPA `HintDescriptor` as seen through the hint macros used by
`_default_value` and `get_parameter_descriptor`: `hasDefault` renders
`LADSPA_IS_HINT_HAS_DEFAULT` (default-mask bits non-zero), `defaultKind`
the masked default kind (meaningful when `hasDefault`), and the remaining
fields the individual hint bits. -/
structure HintDescriptor where
  hasDefault : Bool
  defaultKind : DefaultKind
  boundedBelow : Bool
  boundedAbove : Bool
  sampleRateScaled : Bool
  logarithmic : Bool
  toggled : Bool
  integerStep : Bool
  deriving DecidableEq, Repr

/-- The four mutable locals of `LadspaPlugin::_default_value` after the
case-1..4 dispatch: `ret`, `bounds_given`, `sr_scaling`, `earlier_hint`. -/
structure DVState where
  ret : ℝ
  bounds_given : Bool
  sr_scaling : Bool
  earlier_hint : Bool

/-- Cases 1–4 of `LadspaPlugin::_default_value` for one port's hint
descriptor and range: the default-kind dispatch under `HAS_DEFAULT`, then
the three bounded-only-below / bounded-only-above / bounded-both-sides
cases.  The interpolating kinds switch to log-space interpolation when the
port is logarithmic and `LowerBound * UpperBound > 0`. -/
noncomputable def dvCase (hint : HintDescriptor) (lower upper : ℝ) : DVState :=
  if hint.hasDefault then
    match hint.defaultKind with
    | DefaultKind.minimum => ⟨lower, true, true, false⟩
    | DefaultKind.low =>
        ⟨if hint.logarithmic ∧ lower * upper > 0 then
           Real.exp (Real.log lower * 0.75 + Real.log upper * 0.25)
         else lower * 0.75 + upper * 0.25, true, true, false⟩
    | DefaultKind.middle =>
        ⟨if hint.logarithmic ∧ lower * upper > 0 then
           Real.exp (Real.log lower * 0.5 + Real.log upper * 0.5)
         else lower * 0.5 + upper * 0.5, true, true, false⟩
    | DefaultKind.high =>
        ⟨if hint.logarithmic ∧ lower * upper > 0 then
           Real.exp (Real.log lower * 0.25 + Real.log upper * 0.75)
         else lower * 0.25 + upper * 0.75, true, true, false⟩
    | DefaultKind.maximum => ⟨upper, true, true, false⟩
    | DefaultKind.lit0 => ⟨0, false, false, true⟩
    | DefaultKind.lit1 => ⟨1, false, false, true⟩
    | DefaultKind.lit100 => ⟨100, false, false, true⟩
    | DefaultKind.lit440 => ⟨440, false, false, true⟩
    | DefaultKind.unrecognized => ⟨0, false, false, false⟩
  else if hint.boundedBelow && !hint.boundedAbove then
    ⟨if lower < 0 then 0 else lower, true, true, false⟩
  else if !hint.boundedBelow && hint.boundedAbove then
    ⟨if upper > 0 then 0 else upper, true, true, false⟩
  else if hint.boundedBelow && hint.boundedAbove then
    ⟨if lower < 0 ∧ upper > 0 then 0
     else if lower < 0 ∧ upper < 0 then upper
     else lower, true, true, false⟩
  else ⟨0, false, false, false⟩

/-- Embeds `LadspaPlugin::_default_value` over the reals (the C floats
compute with `exp`/`log`): the case-1..4 dispatch of `dvCase` followed by
the case-5 sample-rate step, which is skipped entirely after a
literal-constant default (`earlier_hint`) and degenerates to the sample
rate itself when no case supplied a bound-derived value. -/
noncomputable def _default_value (hint : HintDescriptor)
    (lower upper sampleRate : ℝ) : ℝ :=
  if hint.sampleRateScaled && !(dvCase hint lower upper).earlier_hint then
    if (dvCase hint lower upper).bounds_given then
      (if (dvCase hint lower upper).sr_scaling then
        (dvCase hint lower upper).ret * sampleRate
      else (dvCase hint lower upper).ret)
    else sampleRate
  else (dvCase hint lower upper).ret

/-- A five-port fixture: an input control port, the output control port
named `latency`, two audio input ports and one audio output port. -/
def exPorts : List PortDescriptor :=
  [⟨true, false, true, false, "gain"⟩,
   ⟨false, true, true, false, "latency"⟩,
   ⟨true, false, false, true, "in L"⟩,
   ⟨true, false, false, true, "in R"⟩,
   ⟨false, true, false, true, "out"⟩]

/-- A concrete adapter state over `exPorts`, with distinct live and shadow
values on the input control port. -/
def exState : LadspaState :=
  ⟨exPorts, [1, 0, 0, 0, 0], [2, 0, 0, 0, 0],
   List.replicate 5 BufferConn.unconnected, some 1, true⟩

/-- A concrete plugin run function: writes `7/2` into live slot 1 (the
latency port of `exPorts`). -/
def exRun : Nat → List ℚ → List ℚ :=
  fun _ c => c.set 1 (7 / 2)

/-- A concrete length-preserving plugin run function: the identity. -/
def exRunId : Nat → List ℚ → List ℚ :=
  fun _ c => c

/-- A concrete default-value seeding. -/
def exDv : Nat → ℚ :=
  fun _ => 0

/-- A host input channel map exposing exactly one valid channel. -/
def exIm : Nat → Option Nat :=
  fun k => if k = 0 then some 0 else none

/-- A host output channel map exposing no valid channel. -/
def exOm : Nat → Option Nat :=
  fun _ => none

end Ladspa

namespace Ladspa

/-! ### List helper lemmas -/

theorem list_getD_set_self {α : Type} (l : List α) (i : Nat) (v d : α)
    (h : i < l.length) : (l.set i v).getD i d = v := by
  induction l generalizing i with
  | nil => simp at h
  | cons a t ih =>
    cases i with
    | zero => simp [List.getD]
    | succ j =>
      simp only [List.set, List.getD_cons_succ]
      exact ih j (by simpa using h)

theorem list_getD_set_ne {α : Type} (l : List α) (i j : Nat) (v d : α)
    (h : i ≠ j) : (l.set i v).getD j d = l.getD j d := by
  induction l generalizing i j with
  | nil => simp
  | cons a t ih =>
    cases i with
    | zero =>
      cases j with
      | zero => exact absurd rfl h
      | succ j2 => simp [List.getD]
    | succ i2 =>
      cases j with
      | zero => simp [List.getD]
      | succ j2 =>
        simp only [List.set, List.getD_cons_succ]
        exact ih i2 j2 (fun he => h (by rw [he]))

theorem foldl_invariant {α β : Type} (P : α → Prop) (f : α → β → α)
    (l : List β) (a : α) (hstep : ∀ x b, P x → P (f x b)) (h : P a) :
    P (l.foldl f a) := by
  induction l generalizing a with
  | nil => exact h
  | cons b t ih => exact ih (f a b) (hstep a b h)

theorem foldl_set_range_length {α : Type} (p : Nat → Bool) (v : Nat → α)
    (n : Nat) (l : List α) :
    ((List.range n).foldl
      (fun acc i => if p i then acc.set i (v i) else acc) l).length
      = l.length := by
  refine foldl_invariant (fun (x : List α) => x.length = l.length) _ _ _ ?_ rfl
  intro x b hx
  by_cases hb : p b <;> simp [hb, hx]

theorem foldl_set_range_getD {α : Type} (p : Nat → Bool) (v : Nat → α)
    (d : α) (n : Nat) (l : List α) (hn : n ≤ l.length) (j : Nat) :
    ((List.range n).foldl
      (fun acc i => if p i then acc.set i (v i) else acc) l).getD j d
      = if j < n ∧ p j = true then v j else l.getD j d := by
  induction n with
  | zero => simp
  | succ m ih =>
    have hm : m ≤ l.length := Nat.le_of_succ_le hn
    have hlen :
        ((List.range m).foldl
          (fun acc i => if p i then acc.set i (v i) else acc) l).length
          = l.length := foldl_set_range_length p v m l
    rw [List.range_succ, List.foldl_append, List.foldl_cons, List.foldl_nil]
    by_cases hp : p m
    · simp only [hp, if_true]
      by_cases hj : j = m
      · subst hj
        rw [list_getD_set_self _ _ _ _ (by rw [hlen]; exact hn)]
        simp [hp, Nat.lt_succ_self]
      · rw [list_getD_set_ne _ _ _ _ _ (fun he => hj he.symm), ih hm]
        by_cases hjm : j < m
        · simp [hjm, Nat.lt_succ_of_lt hjm]
        · have h1 : ¬(j < m ∧ p j = true) := fun hc => hjm hc.1
          have h2 : ¬(j < m + 1 ∧ p j = true) := by
            rintro ⟨hlt, hpj⟩
            exact hjm (Nat.lt_of_le_of_ne (Nat.le_of_lt_succ hlt) hj)
          simp [h1, h2]
    · simp only [hp, if_false, Bool.false_eq_true]
      rw [ih hm]
      by_cases hj : j = m
      · subst hj
        have h1 : ¬(j < j ∧ p j = true) := fun hc => Nat.lt_irrefl j hc.1
        have h2 : ¬(j < j + 1 ∧ p j = true) := fun hc => by
          rw [hc.2] at hp; exact hp rfl
        simp [h1, h2, hp]
      · by_cases hjm : j < m
        · simp [hjm, Nat.lt_succ_of_lt hjm]
        · have h1 : ¬(j < m ∧ p j = true) := fun hc => hjm hc.1
          have h2 : ¬(j < m + 1 ∧ p j = true) := by
            rintro ⟨hlt, hpj⟩
            exact hjm (Nat.lt_of_le_of_ne (Nat.le_of_lt_succ hlt) hj)
          simp [h1, h2]

/-! ### `set_parameter` helper lemmas -/

theorem set_parameter_ports (s : LadspaState) (w : Nat) (v : ℚ) :
    (s.set_parameter w v).ports = s.ports := by
  unfold LadspaState.set_parameter
  split
  · split <;> rfl
  · rfl

theorem set_parameter_control (s : LadspaState) (w : Nat) (v : ℚ) :
    (s.set_parameter w v).control_data = s.control_data := by
  unfold LadspaState.set_parameter
  split
  · split <;> rfl
  · rfl

theorem set_parameter_latency (s : LadspaState) (w : Nat) (v : ℚ) :
    (s.set_parameter w v).latency_control_port = s.latency_control_port := by
  unfold LadspaState.set_parameter
  split
  · split <;> rfl
  · rfl

theorem set_parameter_shadow_length (s : LadspaState) (w : Nat) (v : ℚ) :
    (s.set_parameter w v).shadow_data.length = s.shadow_data.length := by
  unfold LadspaState.set_parameter
  split
  · split
    · rfl
    · simp
  · rfl

theorem set_parameter_shadow_getD_ne (s : LadspaState) (w j : Nat) (v : ℚ)
    (h : w ≠ j) :
    (s.set_parameter w v).shadow_data.getD j 0 = s.shadow_data.getD j 0 := by
  unfold LadspaState.set_parameter
  split
  · split
    · rfl
    · exact list_getD_set_ne _ _ _ _ _ h
  · rfl

theorem get_parameter_set_self (s : LadspaState) (which : Nat) (v : ℚ)
    (hr : which < s.ports.length)
    (hin : (s.port_descriptor which).isInput = true)
    (hlen : s.shadow_data.length = s.ports.length) :
    (s.set_parameter which v).get_parameter which = v := by
  unfold LadspaState.set_parameter
  rw [if_pos hr]
  by_cases he : s.get_parameter which = v
  · rw [if_pos he]; exact he
  · rw [if_neg he]
    unfold LadspaState.get_parameter LadspaState.port_descriptor
    simp only
    rw [if_pos (show (s.ports.getD which zeroPort).isInput = true from hin)]
    exact list_getD_set_self _ _ _ _ (hlen ▸ hr)

theorem get_parameter_set_non_input (s : LadspaState) (w : Nat) (v : ℚ)
    (hin : (s.port_descriptor w).isInput = false) :
    (s.set_parameter w v).get_parameter w = s.get_parameter w := by
  unfold LadspaState.set_parameter
  by_cases hr : w < s.ports.length
  · rw [if_pos hr]
    by_cases he : s.get_parameter w = v
    · rw [if_pos he]
    · rw [if_neg he]
      have hin' : (s.ports.getD w zeroPort).isInput = false := hin
      unfold LadspaState.get_parameter LadspaState.port_descriptor
      simp only [List.getD_eq_getElem?_getD] at hin' ⊢
      simp [hin']
  · rw [if_neg hr]

/-! ### Claims C2 and C3 -/

/-- C2: `get_parameter` returns the shadow slot for an input-direction port
and the live slot otherwise; hence `set_parameter (i, v)` immediately
followed by `get_parameter (i)` on an in-range input control port returns
`v` with no intervening process call, and `get_parameter` on an
output-direction (non-input) port is unaffected by a `set_parameter`
targeting that port. -/
theorem get_parameter_shadow_live_asymmetry (s : LadspaState) (which w : Nat)
    (v v' : ℚ) :
    (which < s.parameter_count →
      s.get_parameter which
        = if (s.port_descriptor which).isInput then s.shadow_data.getD which 0
          else s.control_data.getD which 0) ∧
    (which < s.parameter_count →
      (s.port_descriptor which).isInput = true →
      (s.port_descriptor which).isControl = true →
      s.shadow_data.length = s.ports.length →
      (s.set_parameter which v).get_parameter which = v) ∧
    ((s.port_descriptor w).isOutput = true →
      (s.port_descriptor w).isInput = false →
      (s.set_parameter w v').get_parameter w = s.get_parameter w) := by
  refine ⟨fun _ => rfl, ?_, ?_⟩
  · intro hr hin _hctl hlen
    exact get_parameter_set_self s which v hr hin hlen
  · intro _hout hin
    exact get_parameter_set_non_input s w v' hin

/-- C2 witness: on the concrete fixture, a write to input control port 0 is
immediately visible, and a write targeting output port 1 leaves its
reported value alone. -/
theorem get_parameter_shadow_live_asymmetry_w :
    (exState.set_parameter 0 5).get_parameter 0 = 5 ∧
    (exState.set_parameter 1 9).get_parameter 1 = exState.get_parameter 1 := by
  refine ⟨?_, ?_⟩
  · exact (get_parameter_shadow_live_asymmetry exState 0 1 5 9).2.1
      (by decide) (by decide) (by decide) (by decide)
  · exact (get_parameter_shadow_live_asymmetry exState 0 1 5 9).2.2
      (by decide) (by decide)

/-- C3: an out-of-range `set_parameter` leaves the state unchanged; an
in-range write whose value equals the currently visible value is elided;
otherwise only the targeted shadow slot changes; and a second identical
call performs no further update. -/
theorem set_parameter_range_and_elision (s : LadspaState) (which : Nat)
    (v : ℚ) :
    (s.parameter_count ≤ which → s.set_parameter which v = s) ∧
    (which < s.parameter_count → s.get_parameter which = v →
      s.set_parameter which v = s) ∧
    (which < s.parameter_count → s.get_parameter which ≠ v →
      (s.set_parameter which v).shadow_data = s.shadow_data.set which v ∧
      (s.set_parameter which v).control_data = s.control_data ∧
      ∀ j, j ≠ which →
        (s.set_parameter which v).shadow_data.getD j 0
          = s.shadow_data.getD j 0) ∧
    ((s.set_parameter which v).set_parameter which v
      = s.set_parameter which v) := by
  refine ⟨?_, ?_, ?_, ?_⟩
  · intro h
    unfold LadspaState.set_parameter
    rw [if_neg (show ¬which < s.ports.length from Nat.not_lt.2 h)]
  · intro h1 h2
    unfold LadspaState.set_parameter
    rw [if_pos (show which < s.ports.length from h1), if_pos h2]
  · intro h1 h2
    unfold LadspaState.set_parameter
    rw [if_pos (show which < s.ports.length from h1), if_neg h2]
    exact ⟨rfl, rfl, fun j hj => list_getD_set_ne _ _ _ _ _ (Ne.symm hj)⟩
  · by_cases hr : which < s.ports.length
    · by_cases he : s.get_parameter which = v
      · have h1 : s.set_parameter which v = s := by
          unfold LadspaState.set_parameter
          rw [if_pos hr, if_pos he]
        rw [h1]
        exact h1
      · have h1 : s.set_parameter which v
            = { s with shadow_data := s.shadow_data.set which v } := by
          unfold LadspaState.set_parameter
          rw [if_pos hr, if_neg he]
        rw [h1]
        unfold LadspaState.set_parameter
        rw [if_pos (show which
          < ({ s with shadow_data := s.shadow_data.set which v } :
              LadspaState).ports.length from hr)]
        split
        · rfl
        · simp only [List.set_set]
    · have h1 : s.set_parameter which v = s := by
        unfold LadspaState.set_parameter
        rw [if_neg hr]
      rw [h1]
      exact h1

/-- C3 witness: on the concrete fixture, index 7 is rejected without a
state change and an in-range non-elided write updates the shadow slot
only. -/
theorem set_parameter_range_and_elision_w :
    exState.set_parameter 7 5 = exState ∧
    (exState.set_parameter 0 5).shadow_data = exState.shadow_data.set 0 5 ∧
    (exState.set_parameter 0 5).control_data = exState.control_data := by
  refine ⟨?_, ?_, ?_⟩
  · exact (set_parameter_range_and_elision exState 7 5).1 (by decide)
  · exact ((set_parameter_range_and_elision exState 0 5).2.2.1
      (by decide) (by decide)).1
  · exact ((set_parameter_range_and_elision exState 0 5).2.2.1
      (by decide) (by decide)).2.1

/-! ### `run_in_place` / routing helper lemmas -/

theorem shadowCopy_control_getD (s : LadspaState)
    (hc : s.control_data.length = s.ports.length) (j : Nat) :
    s.shadowCopy.control_data.getD j 0
      = if j < s.ports.length ∧
            ((s.port_descriptor j).isInput && (s.port_descriptor j).isControl)
              = true
        then s.shadow_data.getD j 0
        else s.control_data.getD j 0 := by
  unfold LadspaState.shadowCopy
  exact foldl_set_range_getD
    (fun i => (s.port_descriptor i).isInput && (s.port_descriptor i).isControl)
    (fun i => s.shadow_data.getD i 0) 0 s.ports.length s.control_data
    (le_of_eq hc.symm) j

theorem shadowCopy_control_length (s : LadspaState) :
    s.shadowCopy.control_data.length = s.control_data.length := by
  unfold LadspaState.shadowCopy
  exact foldl_set_range_length _ _ _ _

theorem routePorts_shape (im om : Nat → Option Nat) (off : Nat)
    (s : LadspaState) :
    ∃ cs, s.routePorts im om off = { s with connections := cs } := by
  unfold LadspaState.routePorts
  refine foldl_invariant
    (fun acc : LadspaState × Nat × Nat =>
      ∃ cs, acc.1 = { s with connections := cs }) _ _ _ ?_ ⟨s.connections, rfl⟩
  intro x b hx
  obtain ⟨cs, hx⟩ := hx
  unfold LadspaState.routeStep LadspaState.connect_port
  split
  · split
    · exact ⟨x.1.connections.set b _, by rw [hx]⟩
    · split
      · exact ⟨x.1.connections.set b _, by rw [hx]⟩
      · exact ⟨cs, hx⟩
  · exact ⟨cs, hx⟩

/-! ### Claim C1 -/

/-- C1: in every processing call, the live slot of each input control port
is set to the current shadow value by the single copy step that opens
`run_in_place`, before the plugin's `run` entry point sees the live slots;
the copy leaves every other live slot and all shadow slots untouched, and
`connect_and_run` only routes audio buffers before delegating to
`run_in_place`, so this copy is the only point where a host-side shadow
edit becomes visible to the plugin. -/
theorem run_copies_shadow_once (descRun : Nat → List ℚ → List ℚ)
    (nframes off : Nat) (im om : Nat → Option Nat) (s : LadspaState)
    (hc : s.control_data.length = s.ports.length) :
    ((s.run_in_place descRun nframes).shadow_data = s.shadow_data) ∧
    ((s.run_in_place descRun nframes).control_data
      = descRun nframes s.shadowCopy.control_data) ∧
    (∀ i, i < s.parameter_count →
      (((s.port_descriptor i).isInput = true ∧
          (s.port_descriptor i).isControl = true) →
        s.shadowCopy.control_data.getD i 0 = s.shadow_data.getD i 0) ∧
      (¬((s.port_descriptor i).isInput = true ∧
          (s.port_descriptor i).isControl = true) →
        s.shadowCopy.control_data.getD i 0 = s.control_data.getD i 0)) ∧
    (s.shadowCopy.shadow_data = s.shadow_data) ∧
    (∃ cs, s.routePorts im om off = { s with connections := cs }) ∧
    (s.connect_and_run descRun im om nframes off
      = (s.routePorts im om off).run_in_place descRun nframes) := by
  refine ⟨rfl, rfl, ?_, rfl, routePorts_shape im om off s, rfl⟩
  intro i hi
  constructor
  · rintro ⟨h1, h2⟩
    rw [shadowCopy_control_getD s hc i]
    have hb : ((s.port_descriptor i).isInput && (s.port_descriptor i).isControl)
        = true := by rw [h1, h2]; rfl
    have hi' : i < s.ports.length := hi
    simp [hi', hb]
  · intro hn
    rw [shadowCopy_control_getD s hc i]
    have hb : ¬(((s.port_descriptor i).isInput
        && (s.port_descriptor i).isControl) = true) := by
      intro hb
      rw [Bool.and_eq_true] at hb
      exact hn hb
    simp [hb]

/-- C1 witness: on the concrete fixture, the copy step publishes the shadow
value of input control port 0 into its live slot and leaves the shadow
slots unchanged. -/
theorem run_copies_shadow_once_w :
    exState.shadowCopy.control_data.getD 0 0 = exState.shadow_data.getD 0 0 ∧
    (exState.run_in_place exRunId 64).shadow_data = exState.shadow_data := by
  have h := run_copies_shadow_once exRunId 64 0 exIm exOm exState (by decide)
  exact ⟨(h.2.2.1 0 (by decide)).1 ⟨by decide, by decide⟩, h.1⟩

/-! ### Routing loop characterization -/

theorem port_descriptor_update_connections (s : LadspaState)
    (cs : List BufferConn) (i : Nat) :
    ({ s with connections := cs } : LadspaState).port_descriptor i
      = s.port_descriptor i := rfl

theorem audio_in_count_succ (s : LadspaState) (n : Nat) :
    s.audio_in_count (n + 1)
      = s.audio_in_count n
        + (if ((s.port_descriptor n).isAudio && (s.port_descriptor n).isInput)
              = true
           then 1 else 0) := by
  unfold LadspaState.audio_in_count
  rw [List.range_succ, List.filter_append, List.length_append]
  by_cases hp : ((s.port_descriptor n).isAudio && (s.port_descriptor n).isInput)
      = true
  · simp [List.filter_cons, hp]
  · simp [List.filter_cons, hp]

theorem audio_out_count_succ (s : LadspaState) (n : Nat) :
    s.audio_out_count (n + 1)
      = s.audio_out_count n
        + (if ((s.port_descriptor n).isAudio && !(s.port_descriptor n).isInput
              && (s.port_descriptor n).isOutput) = true
           then 1 else 0) := by
  unfold LadspaState.audio_out_count
  rw [List.range_succ, List.filter_append, List.length_append]
  by_cases hp : ((s.port_descriptor n).isAudio && !(s.port_descriptor n).isInput
      && (s.port_descriptor n).isOutput) = true
  · simp [List.filter_cons, hp]
  · simp [List.filter_cons, hp]

theorem routeStep_eval (im om : Nat → Option Nat) (off : Nat)
    (st : LadspaState) (ain aout pi : Nat) :
    LadspaState.routeStep im om off (st, ain, aout) pi
      = if (st.port_descriptor pi).isAudio then
          if (st.port_descriptor pi).isInput then
            ({ st with connections :=
                (st.connections.set pi
                  (match im ain with
                   | some b => BufferConn.host b off
                   | none => BufferConn.silent off)) }, ain + 1, aout)
          else if (st.port_descriptor pi).isOutput then
            ({ st with connections :=
                (st.connections.set pi
                  (match om aout with
                   | some b => BufferConn.host b off
                   | none => BufferConn.scratch off)) }, ain, aout + 1)
          else (st, ain, aout)
        else (st, ain, aout) := rfl

theorem routeFold_spec (im om : Nat → Option Nat) (off : Nat)
    (s : LadspaState) (hconn : s.connections.length = s.ports.length)
    (n : Nat) (hn : n ≤ s.ports.length) :
    ∃ cs : List BufferConn,
      (List.range n).foldl (LadspaState.routeStep im om off) (s, 0, 0)
        = ({ s with connections := cs },
           s.audio_in_count n, s.audio_out_count n) ∧
      cs.length = s.ports.length ∧
      (∀ j, j < n →
        cs.getD j BufferConn.unconnected = s.expectedConn im om off j) ∧
      (∀ j, n ≤ j →
        cs.getD j BufferConn.unconnected
          = s.connections.getD j BufferConn.unconnected) := by
  induction n with
  | zero =>
    exact ⟨s.connections, rfl, hconn,
      fun j hj => absurd hj (Nat.not_lt_zero j), fun j _ => rfl⟩
  | succ m ih =>
    obtain ⟨cs, heq, hlen, hin, hout⟩ := ih (Nat.le_of_succ_le hn)
    rw [List.range_succ, List.foldl_append, List.foldl_cons, List.foldl_nil,
      heq, routeStep_eval, port_descriptor_update_connections]
    have hm : m < s.ports.length := hn
    by_cases ha : (s.port_descriptor m).isAudio = true
    · by_cases hi2 : (s.port_descriptor m).isInput = true
      · -- audio input port
        rw [if_pos ha, if_pos hi2]
        refine ⟨cs.set m
          (match im (s.audio_in_count m) with
           | some b => BufferConn.host b off
           | none => BufferConn.silent off), ?_, ?_, ?_, ?_⟩
        · rw [audio_in_count_succ, audio_out_count_succ]
          simp [ha, hi2]
        · simp [hlen]
        · intro j hj
          by_cases hjm : j = m
          · subst hjm
            rw [list_getD_set_self _ _ _ _ (by rw [hlen]; exact hm)]
            unfold LadspaState.expectedConn
            rw [if_pos (by rw [ha, hi2]; rfl)]
          · rw [list_getD_set_ne _ _ _ _ _ (fun he => hjm he.symm)]
            exact hin j (Nat.lt_of_le_of_ne (Nat.le_of_lt_succ hj) hjm)
        · intro j hj
          rw [list_getD_set_ne _ _ _ _ _ (Nat.ne_of_lt (Nat.lt_of_succ_le hj))]
          exact hout j (Nat.le_of_succ_le hj)
      · have hi2' : (s.port_descriptor m).isInput = false := by
          revert hi2; cases (s.port_descriptor m).isInput <;> simp
        by_cases ho : (s.port_descriptor m).isOutput = true
        · -- audio output port
          rw [if_pos ha, if_neg hi2, if_pos ho]
          refine ⟨cs.set m
            (match om (s.audio_out_count m) with
             | some b => BufferConn.host b off
             | none => BufferConn.scratch off), ?_, ?_, ?_, ?_⟩
          · rw [audio_in_count_succ, audio_out_count_succ]
            simp [ha, hi2', ho]
          · simp [hlen]
          · intro j hj
            by_cases hjm : j = m
            · subst hjm
              rw [list_getD_set_self _ _ _ _ (by rw [hlen]; exact hm)]
              unfold LadspaState.expectedConn
              rw [if_neg (by rw [ha, hi2']; simp),
                if_pos (by rw [ha, ho]; rfl)]
            · rw [list_getD_set_ne _ _ _ _ _ (fun he => hjm he.symm)]
              exact hin j (Nat.lt_of_le_of_ne (Nat.le_of_lt_succ hj) hjm)
          · intro j hj
            rw [list_getD_set_ne _ _ _ _ _
              (Nat.ne_of_lt (Nat.lt_of_succ_le hj))]
            exact hout j (Nat.le_of_succ_le hj)
        · -- audio port, neither direction bit: untouched
          have ho' : (s.port_descriptor m).isOutput = false := by
            revert ho; cases (s.port_descriptor m).isOutput <;> simp
          rw [if_pos ha, if_neg hi2, if_neg ho]
          refine ⟨cs, ?_, hlen, ?_, fun j hj => hout j (Nat.le_of_succ_le hj)⟩
          · rw [audio_in_count_succ, audio_out_count_succ]
            simp [hi2', ho']
          · intro j hj
            by_cases hjm : j = m
            · subst hjm
              rw [hout j (Nat.le_refl j)]
              unfold LadspaState.expectedConn
              rw [if_neg (by rw [hi2']; simp), if_neg (by rw [ho']; simp)]
            · exact hin j (Nat.lt_of_le_of_ne (Nat.le_of_lt_succ hj) hjm)
    · -- not an audio port: untouched
      have ha' : (s.port_descriptor m).isAudio = false := by
        revert ha; cases (s.port_descriptor m).isAudio <;> simp
      rw [if_neg ha]
      refine ⟨cs, ?_, hlen, ?_, fun j hj => hout j (Nat.le_of_succ_le hj)⟩
      · rw [audio_in_count_succ, audio_out_count_succ]
        simp [ha']
      · intro j hj
        by_cases hjm : j = m
        · subst hjm
          rw [hout j (Nat.le_refl j)]
          unfold LadspaState.expectedConn
          rw [if_neg (by rw [ha']; simp), if_neg (by rw [ha']; simp)]
        · exact hin j (Nat.lt_of_le_of_ne (Nat.le_of_lt_succ hj) hjm)

theorem run_in_place_connections (descRun : Nat → List ℚ → List ℚ)
    (nframes : Nat) (s : LadspaState) :
    (s.run_in_place descRun nframes).connections = s.connections := rfl

theorem connect_and_run_connections (descRun : Nat → List ℚ → List ℚ)
    (im om : Nat → Option Nat) (nframes off : Nat) (s : LadspaState)
    (hconn : s.connections.length = s.ports.length)
    (j : Nat) (hj : j < s.ports.length) :
    (s.connect_and_run descRun im om nframes off).connections.getD j
        BufferConn.unconnected
      = s.expectedConn im om off j := by
  obtain ⟨cs, heq, _, hin, _⟩ :=
    routeFold_spec im om off s hconn s.ports.length (Nat.le_refl _)
  show (s.routePorts im om off).connections.getD j BufferConn.unconnected = _
  unfold LadspaState.routePorts
  rw [heq]
  exact hin j hj

/-! ### Claim C8 -/

/-- C8: `connect_and_run` walks the audio ports in port-index order with
separate monotonically increasing input and output counters into the
channel maps: an audio input port whose lookup at its input ordinal is
invalid is connected to the shared zero-filled silent buffer at the frame
offset, an audio output port whose lookup is invalid to the shared scratch
buffer; the silent buffer's contents are all zero, so with two declared
audio input ports and a map exposing one valid channel the second port
reads all zeros. -/
theorem connect_and_run_audio_routing (descRun : Nat → List ℚ → List ℚ)
    (im om : Nat → Option Nat) (nframes off : Nat) (s : LadspaState)
    (hconn : s.connections.length = s.ports.length) :
    (∀ j, j < s.parameter_count →
      (s.port_descriptor j).isAudio = true →
      (s.port_descriptor j).isInput = true →
      (s.connect_and_run descRun im om nframes off).connections.getD j
          BufferConn.unconnected
        = (match im (s.audio_in_count j) with
           | some b => BufferConn.host b off
           | none => BufferConn.silent off)) ∧
    (∀ j, j < s.parameter_count →
      (s.port_descriptor j).isAudio = true →
      (s.port_descriptor j).isInput = false →
      (s.port_descriptor j).isOutput = true →
      (s.connect_and_run descRun im om nframes off).connections.getD j
          BufferConn.unconnected
        = (match om (s.audio_out_count j) with
           | some b => BufferConn.host b off
           | none => BufferConn.scratch off)) ∧
    (∀ k, silent_buffer k = 0) := by
  refine ⟨?_, ?_, fun _ => rfl⟩
  · intro j hj ha hi2
    rw [connect_and_run_connections descRun im om nframes off s hconn j hj]
    unfold LadspaState.expectedConn
    rw [if_pos (by rw [ha, hi2]; rfl)]
  · intro j hj ha hi2 ho
    rw [connect_and_run_connections descRun im om nframes off s hconn j hj]
    unfold LadspaState.expectedConn
    rw [if_neg (by rw [ha, hi2]; simp), if_pos (by rw [ha, ho]; rfl)]

/-- C8 witness: on the fixture with audio input ports 2 and 3 and a map
exposing only channel 0, the second audio input port is connected to the
silent buffer at the frame offset, and the silent buffer is all zero. -/
theorem connect_and_run_audio_routing_w :
    (exState.connect_and_run exRunId exIm exOm 64 5).connections.getD 3
        BufferConn.unconnected = BufferConn.silent 5 ∧
    (exState.connect_and_run exRunId exIm exOm 64 5).connections.getD 2
        BufferConn.unconnected = BufferConn.host 0 5 ∧
    silent_buffer 9 = 0 := by
  have h := connect_and_run_audio_routing exRunId exIm exOm 64 5 exState
    (by decide)
  refine ⟨?_, ?_, h.2.2 9⟩
  · rw [h.1 3 (by decide) (by decide) (by decide)]
    decide
  · rw [h.1 2 (by decide) (by decide) (by decide)]
    decide

/-! ### Claim C9 -/

/-- C9: with a latency-reporting output control port at index `i`,
`plugin_latency` is the floor of that port's live value; the construction-
time probe (activate, connect every audio port to the single zero-filled
1024-frame buffer, run once, deactivate) leaves in that slot exactly what
the plugin's `run` wrote there, so the reported latency needs no further
process call; with no latency port the probe is skipped entirely and the
reported latency is zero. -/
theorem latency_probe_and_report (descRun : Nat → List ℚ → List ℚ)
    (s : LadspaState) :
    (s.latency_control_port = none →
      s.latency_compute_run descRun = s ∧ s.plugin_latency = 0) ∧
    (∀ i, s.latency_control_port = some i →
      s.plugin_latency = Int.floor (s.control_data.getD i 0) ∧
      (s.latency_compute_run descRun).plugin_latency
        = Int.floor
            ((descRun 1024 s.activate.probeConnect.shadowCopy.control_data).getD
              i 0) ∧
      (s.connections.length = s.ports.length →
        ∀ j, j < s.parameter_count →
          (s.port_descriptor j).isAudio = true →
          ((s.port_descriptor j).isInput = true ∨
            (s.port_descriptor j).isOutput = true) →
          (s.latency_compute_run descRun).connections.getD j
              BufferConn.unconnected
            = BufferConn.probeBuffer) ∧
      LadspaState.probe_buffer.length = 1024 ∧
      (∀ k, LadspaState.probe_buffer.getD k 0 = 0)) := by
  constructor
  · intro h
    constructor
    · unfold LadspaState.latency_compute_run
      rw [h]
    · unfold LadspaState.plugin_latency
      rw [h]
  · intro i hi
    refine ⟨?_, ?_, ?_,
      by unfold LadspaState.probe_buffer; exact List.length_replicate 1024 0, ?_⟩
    · unfold LadspaState.plugin_latency
      rw [hi]
    · unfold LadspaState.latency_compute_run
      rw [hi]
      show ((s.activate.probeConnect.run_in_place descRun
        1024).deactivate).plugin_latency = _
      unfold LadspaState.plugin_latency
      rw [show ((s.activate.probeConnect.run_in_place descRun
        1024).deactivate).latency_control_port = some i from hi]
      rfl
    · intro hconn j hj ha hdir
      have hchain : (s.latency_compute_run descRun).connections
          = s.activate.probeConnect.connections := by
        unfold LadspaState.latency_compute_run
        rw [hi]
        rfl
      rw [hchain]
      have h1 : s.activate.probeConnect.connections.getD j
            BufferConn.unconnected
          = if j < s.ports.length ∧
                ((s.port_descriptor j).isAudio
                  && ((s.port_descriptor j).isInput
                    || (s.port_descriptor j).isOutput)) = true
            then BufferConn.probeBuffer
            else s.connections.getD j BufferConn.unconnected := by
        unfold LadspaState.probeConnect LadspaState.activate
        exact foldl_set_range_getD
          (fun i2 => (s.port_descriptor i2).isAudio
            && ((s.port_descriptor i2).isInput
              || (s.port_descriptor i2).isOutput))
          (fun _ => BufferConn.probeBuffer) BufferConn.unconnected
          s.ports.length s.connections (le_of_eq hconn.symm) j
      rw [h1]
      have hb : ((s.port_descriptor j).isAudio
          && ((s.port_descriptor j).isInput || (s.port_descriptor j).isOutput))
          = true := by
        rcases hdir with h | h <;> simp [ha, h]
      have hj' : j < s.ports.length := hj
      rw [if_pos ⟨hj', hb⟩]
    · intro k
      unfold LadspaState.probe_buffer
      rw [List.getD_eq_getElem?_getD, List.getElem?_replicate]
      split <;> rfl

/-- C9 witness: on the fixture (latency port at index 1) with a plugin run
that writes `7/2` into slot 1, the reported latency right after the probe
is `3`. -/
theorem latency_probe_and_report_w :
    (exState.latency_compute_run exRun).plugin_latency = 3 := by
  have h := ((latency_probe_and_report exRun exState).2 1 (by decide)).2.1
  have h2 : (exRun 1024
      exState.activate.probeConnect.shadowCopy.control_data).getD 1 0
      = 7 / 2 := by rfl
  rw [h, h2, Int.floor_eq_iff]
  constructor <;> norm_num

/-! ### Copy-construction helper lemmas -/

theorem foldl_set_range_length_all {α : Type} (v : Nat → α) (n : Nat)
    (l : List α) :
    ((List.range n).foldl (fun acc i => acc.set i (v i)) l).length
      = l.length := by
  refine foldl_invariant (fun (x : List α) => x.length = l.length) _ _ _ ?_ rfl
  intro x b hx
  simp [hx]

theorem foldl_set_range_getD_all {α : Type} (v : Nat → α) (d : α) (n : Nat)
    (l : List α) (hn : n ≤ l.length) (j : Nat) :
    ((List.range n).foldl (fun acc i => acc.set i (v i)) l).getD j d
      = if j < n then v j else l.getD j d := by
  induction n with
  | zero => simp
  | succ m ih =>
    have hm : m ≤ l.length := Nat.le_of_succ_le hn
    have hlen : ((List.range m).foldl (fun acc i => acc.set i (v i)) l).length
        = l.length := foldl_set_range_length_all v m l
    rw [List.range_succ, List.foldl_append, List.foldl_cons, List.foldl_nil]
    by_cases hj : j = m
    · subst hj
      rw [list_getD_set_self _ _ _ _ (by rw [hlen]; exact hn)]
      simp [Nat.lt_succ_self]
    · rw [list_getD_set_ne _ _ _ _ _ (fun he => hj he.symm), ih hm]
      by_cases hjm : j < m
      · simp [hjm, Nat.lt_succ_of_lt hjm]
      · have h2 : ¬j < m + 1 := fun hlt =>
          hjm (Nat.lt_of_le_of_ne (Nat.le_of_lt_succ hlt) hj)
        simp [hjm, h2]

theorem copyLoop_decomp (w : Nat → ℚ) (n : Nat) (st : LadspaState) :
    (List.range n).foldl
      (fun st2 i =>
        { st2 with control_data := (st2.control_data.set i (w i)),
                   shadow_data := (st2.shadow_data.set i (w i)) }) st
      = { st with
          control_data :=
            ((List.range n).foldl (fun c i => c.set i (w i)) st.control_data),
          shadow_data :=
            ((List.range n).foldl (fun c i => c.set i (w i)) st.shadow_data) } := by
  induction n with
  | zero => rfl
  | succ m ih =>
    rw [List.range_succ, List.foldl_append, List.foldl_append,
      List.foldl_append, List.foldl_cons, List.foldl_nil, List.foldl_cons,
      List.foldl_nil, List.foldl_cons, List.foldl_nil, ih]

theorem latency_compute_run_ports (descRun : Nat → List ℚ → List ℚ)
    (s : LadspaState) :
    (s.latency_compute_run descRun).ports = s.ports := by
  unfold LadspaState.latency_compute_run
  rcases hl : s.latency_control_port with _ | i
  · rfl
  · rfl

theorem latency_compute_run_shadow (descRun : Nat → List ℚ → List ℚ)
    (s : LadspaState) :
    (s.latency_compute_run descRun).shadow_data = s.shadow_data := by
  unfold LadspaState.latency_compute_run
  rcases hl : s.latency_control_port with _ | i
  · rfl
  · rfl

theorem latency_compute_run_latency_port (descRun : Nat → List ℚ → List ℚ)
    (s : LadspaState) :
    (s.latency_compute_run descRun).latency_control_port
      = s.latency_control_port := by
  unfold LadspaState.latency_compute_run
  rcases hl : s.latency_control_port with _ | i
  · exact hl
  · exact hl

theorem latency_compute_run_control_length (descRun : Nat → List ℚ → List ℚ)
    (hrun : ∀ nf c, (descRun nf c).length = c.length) (s : LadspaState) :
    (s.latency_compute_run descRun).control_data.length
      = s.control_data.length := by
  unfold LadspaState.latency_compute_run
  rcases hl : s.latency_control_port with _ | i
  · rfl
  · show (descRun 1024 s.activate.probeConnect.shadowCopy.control_data).length
      = s.control_data.length
    rw [hrun]
    exact shadowCopy_control_length s.activate.probeConnect

theorem initState_ports (descRun : Nat → List ℚ → List ℚ)
    (ports : List PortDescriptor) (dv : Nat → ℚ) :
    (initState descRun ports dv).ports = ports := by
  unfold initState
  rw [latency_compute_run_ports]
  refine foldl_invariant (fun (st : LadspaState) => st.ports = ports) _ _ _
    ?_ rfl
  intro x b hx
  dsimp only
  split
  · split
    · exact hx
    · exact hx
  · exact hx

theorem initState_shadow_length (descRun : Nat → List ℚ → List ℚ)
    (ports : List PortDescriptor) (dv : Nat → ℚ) :
    (initState descRun ports dv).shadow_data.length = ports.length := by
  unfold initState
  rw [latency_compute_run_shadow]
  refine foldl_invariant
    (fun (st : LadspaState) => st.shadow_data.length = ports.length) _ _ _
    ?_ (by simp)
  intro x b hx
  dsimp only
  split
  · split
    · show (x.shadow_data.set b (dv b)).length = ports.length
      rw [List.length_set]
      exact hx
    · show (x.shadow_data.set b (dv b)).length = ports.length
      rw [List.length_set]
      exact hx
  · exact hx

theorem initState_control_length (descRun : Nat → List ℚ → List ℚ)
    (hrun : ∀ nf c, (descRun nf c).length = c.length)
    (ports : List PortDescriptor) (dv : Nat → ℚ) :
    (initState descRun ports dv).control_data.length = ports.length := by
  unfold initState
  rw [latency_compute_run_control_length descRun hrun]
  refine foldl_invariant
    (fun (st : LadspaState) => st.control_data.length = ports.length) _ _ _
    ?_ (by simp)
  intro x b hx
  dsimp only
  split
  · split
    · show (((x.control_data.set b 0).set b (dv b)) : List ℚ).length
        = ports.length
      rw [List.length_set, List.length_set]
      exact hx
    · show ((x.control_data.set b (dv b)) : List ℚ).length = ports.length
      rw [List.length_set]
      exact hx
  · exact hx

/-! ### Claim C10 -/

/-- C10: copy construction re-instantiates against the same port table and
sample rate and then overwrites, for every port index, both the new live
and the new shadow slot with the source's shadow value; in particular the
source's live values are never carried over (the copy is invariant under
any change to the source's live slots). -/
theorem copy_construct_takes_shadow (descRun : Nat → List ℚ → List ℚ)
    (dv : Nat → ℚ) (other : LadspaState)
    (hrun : ∀ nf c, (descRun nf c).length = c.length) :
    (∀ i, i < other.ports.length →
      (copyConstruct descRun dv other).control_data.getD i 0
        = other.shadow_data.getD i 0 ∧
      (copyConstruct descRun dv other).shadow_data.getD i 0
        = other.shadow_data.getD i 0) ∧
    (copyConstruct descRun dv other).ports = other.ports ∧
    (∀ c, copyConstruct descRun dv { other with control_data := c }
      = copyConstruct descRun dv other) := by
  have hcl : (initState descRun other.ports dv).control_data.length
      = other.ports.length := initState_control_length descRun hrun other.ports dv
  have hsl : (initState descRun other.ports dv).shadow_data.length
      = other.ports.length := initState_shadow_length descRun other.ports dv
  have hip : (initState descRun other.ports dv).ports = other.ports :=
    initState_ports descRun other.ports dv
  refine ⟨?_, ?_, fun c => rfl⟩
  · intro i hi
    unfold copyConstruct
    rw [copyLoop_decomp (fun i2 => other.shadow_data.getD i2 0)
      other.ports.length (initState descRun other.ports dv)]
    constructor
    · show ((List.range other.ports.length).foldl
        (fun c i2 => c.set i2 (other.shadow_data.getD i2 0))
        (initState descRun other.ports dv).control_data).getD i 0
        = other.shadow_data.getD i 0
      rw [foldl_set_range_getD_all _ _ _ _ (le_of_eq hcl.symm) i, if_pos hi]
    · show ((List.range other.ports.length).foldl
        (fun c i2 => c.set i2 (other.shadow_data.getD i2 0))
        (initState descRun other.ports dv).shadow_data).getD i 0
        = other.shadow_data.getD i 0
      rw [foldl_set_range_getD_all _ _ _ _ (le_of_eq hsl.symm) i, if_pos hi]
  · unfold copyConstruct
    rw [copyLoop_decomp (fun i2 => other.shadow_data.getD i2 0)
      other.ports.length (initState descRun other.ports dv)]
    exact hip

/-- C10 witness: copying the fixture (whose live slot 0 is 1 and shadow
slot 0 is 2) yields live = shadow = 2 at port 0, regardless of the
source's live values. -/
theorem copy_construct_takes_shadow_w :
    (copyConstruct exRunId exDv exState).control_data.getD 0 0 = 2 ∧
    (copyConstruct exRunId exDv exState).shadow_data.getD 0 0 = 2 := by
  have h := (copy_construct_takes_shadow exRunId exDv exState
    (fun _ _ => rfl)).1 0 (by decide)
  exact ⟨by rw [h.1]; rfl, by rw [h.2]; rfl⟩

/-! ### State round-trip helper lemmas -/

theorem port_descriptor_congr (s t : LadspaState) (h : s.ports = t.ports)
    (i : Nat) : s.port_descriptor i = t.port_descriptor i := by
  unfold LadspaState.port_descriptor
  rw [h]

theorem set_parameter_shadow_getD_self (s : LadspaState) (w : Nat) (v : ℚ)
    (hr : w < s.ports.length)
    (hin : (s.port_descriptor w).isInput = true)
    (hlen : s.shadow_data.length = s.ports.length) :
    (s.set_parameter w v).shadow_data.getD w 0 = v := by
  unfold LadspaState.set_parameter
  rw [if_pos hr]
  by_cases he : s.get_parameter w = v
  · rw [if_pos he]
    rw [← he]
    unfold LadspaState.get_parameter
    rw [if_pos hin]
  · rw [if_neg he]
    exact list_getD_set_self _ _ _ _ (hlen ▸ hr)

theorem apn_append (a b : List PortNode) (s : LadspaState) :
    LadspaState.applyPortNodes (a ++ b) s
      = LadspaState.applyPortNodes b (LadspaState.applyPortNodes a s) := by
  unfold LadspaState.applyPortNodes
  rw [List.foldl_append]

theorem apn_ports (nodes : List PortNode) (s : LadspaState) :
    (LadspaState.applyPortNodes nodes s).ports = s.ports := by
  unfold LadspaState.applyPortNodes
  refine foldl_invariant (fun (st : LadspaState) => st.ports = s.ports) _ _ _
    ?_ rfl
  intro x b hx
  rcases b with ⟨num, val⟩
  rcases num with _ | p
  · exact hx
  · rcases val with _ | v
    · exact hx
    · show (x.set_parameter p v).ports = s.ports
      rw [set_parameter_ports]
      exact hx

theorem apn_shadow_length (nodes : List PortNode) (s : LadspaState) :
    (LadspaState.applyPortNodes nodes s).shadow_data.length
      = s.shadow_data.length := by
  unfold LadspaState.applyPortNodes
  refine foldl_invariant
    (fun (st : LadspaState) => st.shadow_data.length = s.shadow_data.length)
    _ _ _ ?_ rfl
  intro x b hx
  rcases b with ⟨num, val⟩
  rcases num with _ | p
  · exact hx
  · rcases val with _ | v
    · exact hx
    · show (x.set_parameter p v).shadow_data.length = s.shadow_data.length
      rw [set_parameter_shadow_length]
      exact hx

theorem docPrefix_succ (s : LadspaState) (m : Nat) :
    s.docPrefix (m + 1)
      = s.docPrefix m
        ++ (if ((s.port_descriptor m).isInput && (s.port_descriptor m).isControl)
              = true
            then [(⟨some m, some (s.shadow_data.getD m 0)⟩ : PortNode)]
            else []) := by
  unfold LadspaState.docPrefix
  rw [List.range_succ, List.filterMap_append]
  congr 1
  cases h1 : (s.port_descriptor m).isInput <;>
    cases h2 : (s.port_descriptor m).isControl <;>
      simp [List.filterMap_cons, h1, h2]

theorem apn_docPrefix_shadow (s1 : LadspaState) (n : Nat)
    (hn : n ≤ s1.ports.length) (s2 : LadspaState) (hp2 : s2.ports = s1.ports)
    (hl2 : s2.shadow_data.length = s2.ports.length) (i : Nat) :
    (LadspaState.applyPortNodes (s1.docPrefix n) s2).shadow_data.getD i 0
      = if i < n ∧
            ((s1.port_descriptor i).isInput && (s1.port_descriptor i).isControl)
              = true
        then s1.shadow_data.getD i 0
        else s2.shadow_data.getD i 0 := by
  induction n with
  | zero =>
    have h0 : s1.docPrefix 0 = [] := rfl
    rw [h0]
    simp [LadspaState.applyPortNodes]
  | succ m ih =>
    have hm : m ≤ s1.ports.length := Nat.le_of_succ_le hn
    rw [docPrefix_succ, apn_append]
    by_cases hp : ((s1.port_descriptor m).isInput
        && (s1.port_descriptor m).isControl) = true
    · rw [if_pos hp]
      have hstep : LadspaState.applyPortNodes
            [(⟨some m, some (s1.shadow_data.getD m 0)⟩ : PortNode)]
            (LadspaState.applyPortNodes (s1.docPrefix m) s2)
          = (LadspaState.applyPortNodes (s1.docPrefix m) s2).set_parameter m
              (s1.shadow_data.getD m 0) := rfl
      rw [hstep]
      have hports : (LadspaState.applyPortNodes (s1.docPrefix m) s2).ports
          = s1.ports := by rw [apn_ports, hp2]
      have hlen : (LadspaState.applyPortNodes
            (s1.docPrefix m) s2).shadow_data.length
          = (LadspaState.applyPortNodes (s1.docPrefix m) s2).ports.length := by
        rw [apn_shadow_length, hports, hl2, hp2]
      have hp' : (s1.port_descriptor m).isInput = true
          ∧ (s1.port_descriptor m).isControl = true := by simpa using hp
      by_cases him : i = m
      · subst him
        rw [set_parameter_shadow_getD_self _ _ _ (by rw [hports]; exact hn)
          (by rw [port_descriptor_congr _ s1 hports i]; exact hp'.1)
          hlen]
        simp [Nat.lt_succ_self, hp]
      · rw [set_parameter_shadow_getD_ne _ _ _ _ (fun he => him he.symm),
          ih hm]
        by_cases hjm : i < m
        · simp [hjm, Nat.lt_succ_of_lt hjm]
        · have h2 : ¬i < m + 1 := fun hlt =>
            hjm (Nat.lt_of_le_of_ne (Nat.le_of_lt_succ hlt) him)
          simp [hjm, h2]
    · rw [if_neg hp]
      have hnil : LadspaState.applyPortNodes ([] : List PortNode)
          (LadspaState.applyPortNodes (s1.docPrefix m) s2)
          = LadspaState.applyPortNodes (s1.docPrefix m) s2 := rfl
      rw [hnil, ih hm]
      by_cases him : i = m
      · subst him
        simp [hp, Nat.lt_irrefl]
      · by_cases hjm : i < m
        · simp [hjm, Nat.lt_succ_of_lt hjm]
        · have h2 : ¬i < m + 1 := fun hlt =>
            hjm (Nat.lt_of_le_of_ne (Nat.le_of_lt_succ hlt) him)
          simp [hjm, h2]

/-! ### Claim C4 -/

/-- C4: `add_state` emits exactly one `(portIndex, shadowValue)` entry per
input-direction control port and none for any other port, and feeding the
resulting document to `set_state` on a freshly constructed adapter over
the same port table restores every input control port's shadow value to
the saving adapter's shadow value, whatever parameter writes preceded the
save. -/
theorem state_roundtrip_restores_shadow (descRun : Nat → List ℚ → List ℚ)
    (dv : Nat → ℚ) (s1 : LadspaState) :
    (∀ nd ∈ s1.add_state, ∃ i, i < s1.ports.length ∧
      (s1.port_descriptor i).isInput = true ∧
      (s1.port_descriptor i).isControl = true ∧
      nd = ⟨some i, some (s1.shadow_data.getD i 0)⟩) ∧
    (∀ i, i < s1.ports.length →
      (s1.port_descriptor i).isInput = true →
      (s1.port_descriptor i).isControl = true →
      (⟨some i, some (s1.shadow_data.getD i 0)⟩ : PortNode) ∈ s1.add_state) ∧
    (∀ i, i < s1.ports.length →
      (s1.port_descriptor i).isInput = true →
      (s1.port_descriptor i).isControl = true →
      ((initState descRun s1.ports dv).set_state descRun stateNodeName
          s1.add_state).2.shadow_data.getD i 0
        = s1.shadow_data.getD i 0) := by
  refine ⟨?_, ?_, ?_⟩
  · intro nd hnd
    unfold LadspaState.add_state LadspaState.docPrefix at hnd
    rw [List.mem_filterMap] at hnd
    obtain ⟨i, hi, hf⟩ := hnd
    rw [List.mem_range] at hi
    by_cases hp : ((s1.port_descriptor i).isInput
        && (s1.port_descriptor i).isControl) = true
    · rw [if_pos hp] at hf
      have hp' : (s1.port_descriptor i).isInput = true
          ∧ (s1.port_descriptor i).isControl = true := by simpa using hp
      exact ⟨i, hi, hp'.1, hp'.2, (Option.some_injective _ hf).symm⟩
    · rw [if_neg hp] at hf
      exact absurd hf (by simp)
  · intro i hi hin hctl
    unfold LadspaState.add_state LadspaState.docPrefix
    rw [List.mem_filterMap]
    exact ⟨i, List.mem_range.2 hi, by rw [if_pos (by rw [hin, hctl]; rfl)]⟩
  · intro i hi hin hctl
    unfold LadspaState.set_state
    rw [if_neg (fun h => h rfl)]
    show ((LadspaState.applyPortNodes s1.add_state
        (initState descRun s1.ports dv)).latency_compute_run
          descRun).shadow_data.getD i 0
      = s1.shadow_data.getD i 0
    rw [latency_compute_run_shadow]
    unfold LadspaState.add_state
    rw [apn_docPrefix_shadow s1 s1.ports.length (Nat.le_refl _)
      (initState descRun s1.ports dv) (initState_ports descRun s1.ports dv)
      (by rw [initState_shadow_length descRun s1.ports dv,
        initState_ports descRun s1.ports dv]) i]
    rw [if_pos ⟨hi, by rw [hin, hctl]; rfl⟩]

/-- C4 witness: saving the fixture (shadow value 2 on input control port 0)
and loading the document into a freshly constructed adapter over the same
ports reproduces shadow value 2 at port 0. -/
theorem state_roundtrip_restores_shadow_w :
    ((initState exRunId exState.ports exDv).set_state exRunId stateNodeName
        exState.add_state).2.shadow_data.getD 0 0 = 2 := by
  have h := (state_roundtrip_restores_shadow exRunId exDv exState).2.2 0
    (by decide) (by decide) (by decide)
  rw [h]
  rfl

/-! ### Claims C5, C6, C7: the default-value resolver -/

/-- C5: a has-default port with one of the literal-constant default kinds
resolves to exactly that literal, with no sample-rate multiplication even
when the sample-rate-scaled hint is also set. -/
theorem default_value_literal_constants (hint : HintDescriptor)
    (lower upper sampleRate : ℝ) (hd : hint.hasDefault = true) :
    (hint.defaultKind = DefaultKind.lit0 →
      _default_value hint lower upper sampleRate = 0) ∧
    (hint.defaultKind = DefaultKind.lit1 →
      _default_value hint lower upper sampleRate = 1) ∧
    (hint.defaultKind = DefaultKind.lit100 →
      _default_value hint lower upper sampleRate = 100) ∧
    (hint.defaultKind = DefaultKind.lit440 →
      _default_value hint lower upper sampleRate = 440) := by
  refine ⟨?_, ?_, ?_, ?_⟩
  · intro hk
    have hc : dvCase hint lower upper = ⟨0, false, false, true⟩ := by
      unfold dvCase
      rw [if_pos hd, hk]
    unfold _default_value
    rw [hc]
    simp
  · intro hk
    have hc : dvCase hint lower upper = ⟨1, false, false, true⟩ := by
      unfold dvCase
      rw [if_pos hd, hk]
    unfold _default_value
    rw [hc]
    simp
  · intro hk
    have hc : dvCase hint lower upper = ⟨100, false, false, true⟩ := by
      unfold dvCase
      rw [if_pos hd, hk]
    unfold _default_value
    rw [hc]
    simp
  · intro hk
    have hc : dvCase hint lower upper = ⟨440, false, false, true⟩ := by
      unfold dvCase
      rw [if_pos hd, hk]
    unfold _default_value
    rw [hc]
    simp

/-- C5 witness: a literal-440 port with the sample-rate-scaled hint set
still resolves to 440 at sample rate 48000. -/
theorem default_value_literal_constants_w :
    _default_value
      ⟨true, DefaultKind.lit440, true, true, true, true, false, false⟩
      2 3 48000 = 440 :=
  (default_value_literal_constants
    ⟨true, DefaultKind.lit440, true, true, true, true, false, false⟩
    2 3 48000 rfl).2.2.2 rfl

/-- C6 counterexample: for a logarithmic default-low port whose bounds are
both negative (`lower = -2`, `upper = -1`), the code still takes the
log-space branch, because its guard tests `LowerBound * UpperBound > 0`
rather than requiring both bounds positive; the claimed linear value
`0.75 * lower + 0.25 * upper` is therefore not what `_default_value`
returns there. -/
theorem default_value_low_log_condition_cex :
    _default_value ⟨true, DefaultKind.low, true, true, false, true, false, false⟩
      (-2) (-1) 48000
      ≠ (-2) * 0.75 + (-1) * 0.25 := by
  have hc : dvCase
      ⟨true, DefaultKind.low, true, true, false, true, false, false⟩
      (-2 : ℝ) (-1 : ℝ)
      = ⟨Real.exp (Real.log (-2) * 0.75 + Real.log (-1) * 0.25),
         true, true, false⟩ := by
    unfold dvCase
    norm_num
  have hval : _default_value
      ⟨true, DefaultKind.low, true, true, false, true, false, false⟩
      (-2) (-1) 48000
      = Real.exp (Real.log (-2) * 0.75 + Real.log (-1) * 0.25) := by
    unfold _default_value
    rw [hc]
    rfl
  rw [hval]
  have hpos := Real.exp_pos (Real.log (-2 : ℝ) * 0.75 + Real.log (-1 : ℝ) * 0.25)
  intro h
  rw [h] at hpos
  norm_num at hpos

/-- C6 as amended: for has-default ports of kind low/middle/high,
`_default_value` interpolates in log-space exactly when the port is
flagged logarithmic and the product of the bounds is positive (both
bounds sharing a nonzero sign), and linearly in every other case, with
weights 0.75/0.25 (low), 0.5/0.5 (middle) and 0.25/0.75 (high); the
interpolated value is then multiplied by the sample rate exactly when the
sample-rate-scaled hint is set. -/
theorem default_value_interpolated_defaults (hint : HintDescriptor)
    (lower upper sampleRate : ℝ) (hd : hint.hasDefault = true) :
    (hint.defaultKind = DefaultKind.low →
      _default_value hint lower upper sampleRate
        = (if hint.logarithmic = true ∧ lower * upper > 0 then
             Real.exp (Real.log lower * 0.75 + Real.log upper * 0.25)
           else lower * 0.75 + upper * 0.25)
          * (if hint.sampleRateScaled = true then sampleRate else 1)) ∧
    (hint.defaultKind = DefaultKind.middle →
      _default_value hint lower upper sampleRate
        = (if hint.logarithmic = true ∧ lower * upper > 0 then
             Real.exp (Real.log lower * 0.5 + Real.log upper * 0.5)
           else lower * 0.5 + upper * 0.5)
          * (if hint.sampleRateScaled = true then sampleRate else 1)) ∧
    (hint.defaultKind = DefaultKind.high →
      _default_value hint lower upper sampleRate
        = (if hint.logarithmic = true ∧ lower * upper > 0 then
             Real.exp (Real.log lower * 0.25 + Real.log upper * 0.75)
           else lower * 0.25 + upper * 0.75)
          * (if hint.sampleRateScaled = true then sampleRate else 1)) := by
  refine ⟨?_, ?_, ?_⟩
  · intro hk
    have hc : dvCase hint lower upper
        = ⟨(if hint.logarithmic = true ∧ lower * upper > 0 then
              Real.exp (Real.log lower * 0.75 + Real.log upper * 0.25)
            else lower * 0.75 + upper * 0.25), true, true, false⟩ := by
      unfold dvCase
      rw [if_pos hd, hk]
    unfold _default_value
    rw [hc]
    by_cases hs : hint.sampleRateScaled = true
    · simp [hs]
    · have hs' : hint.sampleRateScaled = false := by
        revert hs; cases hint.sampleRateScaled <;> simp
      simp [hs']
  · intro hk
    have hc : dvCase hint lower upper
        = ⟨(if hint.logarithmic = true ∧ lower * upper > 0 then
              Real.exp (Real.log lower * 0.5 + Real.log upper * 0.5)
            else lower * 0.5 + upper * 0.5), true, true, false⟩ := by
      unfold dvCase
      rw [if_pos hd, hk]
    unfold _default_value
    rw [hc]
    by_cases hs : hint.sampleRateScaled = true
    · simp [hs]
    · have hs' : hint.sampleRateScaled = false := by
        revert hs; cases hint.sampleRateScaled <;> simp
      simp [hs']
  · intro hk
    have hc : dvCase hint lower upper
        = ⟨(if hint.logarithmic = true ∧ lower * upper > 0 then
              Real.exp (Real.log lower * 0.25 + Real.log upper * 0.75)
            else lower * 0.25 + upper * 0.75), true, true, false⟩ := by
      unfold dvCase
      rw [if_pos hd, hk]
    unfold _default_value
    rw [hc]
    by_cases hs : hint.sampleRateScaled = true
    · simp [hs]
    · have hs' : hint.sampleRateScaled = false := by
        revert hs; cases hint.sampleRateScaled <;> simp
      simp [hs']

/-- C6 witness: a non-logarithmic default-low port with bounds `[2, 6]`
resolves to the linear interpolation `2 * 0.75 + 6 * 0.25`. -/
theorem default_value_interpolated_defaults_w :
    _default_value
      ⟨true, DefaultKind.low, true, true, false, false, false, false⟩
      2 6 48000 = 2 * 0.75 + 6 * 0.25 := by
  have h := (default_value_interpolated_defaults
    ⟨true, DefaultKind.low, true, true, false, false, false, false⟩
    2 6 48000 rfl).1 rfl
  rw [h]
  norm_num

/-- C7: a port with no has-default kind that is bounded on both sides
resolves to 0 when the range straddles zero, to the upper bound when both
bounds are negative, and to the lower bound otherwise, multiplied by the
sample rate exactly when the sample-rate-scaled hint is set. -/
theorem default_value_bounded_both_sides (hint : HintDescriptor)
    (lower upper sampleRate : ℝ) (hd : hint.hasDefault = false)
    (hb : hint.boundedBelow = true) (ha : hint.boundedAbove = true) :
    _default_value hint lower upper sampleRate
      = (if lower < 0 ∧ upper > 0 then 0
         else if lower < 0 ∧ upper < 0 then upper
         else lower)
        * (if hint.sampleRateScaled = true then sampleRate else 1) := by
  have hc : dvCase hint lower upper
      = ⟨(if lower < 0 ∧ upper > 0 then 0
          else if lower < 0 ∧ upper < 0 then upper
          else lower), true, true, false⟩ := by
    unfold dvCase
    rw [if_neg (by simp [hd]), if_neg (by simp [hb, ha]),
      if_neg (by simp [hb]), if_pos (by simp [hb, ha])]
  unfold _default_value
  rw [hc]
  by_cases hs : hint.sampleRateScaled = true
  · simp [hs]
  · have hs' : hint.sampleRateScaled = false := by
      revert hs; cases hint.sampleRateScaled <;> simp
    simp [hs']

/-- C7 witness: bounds `[-2, 3]` straddle zero, so the resolved default is
0. -/
theorem default_value_bounded_both_sides_w :
    _default_value
      ⟨false, DefaultKind.unrecognized, true, true, false, false, false, false⟩
      (-2) 3 48000 = 0 := by
  have h := default_value_bounded_both_sides
    ⟨false, DefaultKind.unrecognized, true, true, false, false, false, false⟩
    (-2) 3 48000 rfl rfl rfl
  rw [h]
  norm_num

end Ladspa
